import Mathlib

/-!
Shallow embedding of `rldp-http-proxy/DNSResolver.h` and
`rldp-http-proxy/DNSResolver.cpp` — the DNS resolver of the rldp-http-proxy.

The C++ actor exposes `resolve(host, promise)`, which consults a soft/hard-TTL
cache and otherwise runs `resolve_recursive`.  One invocation of
`resolve_recursive` performs at most one `smc_load` and one `smc_runGetMethod`
round trip against the external tonlib client; the collaborator's behaviour is
abstracted as an explicit environment value.  Timestamps (`td::Time::now()`,
a `double`) are modelled as rationals; only additions of the constant TTLs and
order comparisons occur, so the model is exact on the values the code compares.
Bytes of `std::string` / `std::vector<uint8_t>` are modelled as `Nat` via the
UTF-8 encoding of the string's characters.
-/

deriving instance DecidableEq for Except

namespace DNSResolver

/-- One byte, as stored in a `std::vector<uint8_t>`. -/
abbrev Byte := Nat

/-- The UTF-8 bytes of one character, as they sit in a C++ `std::string`. -/
def charBytes (c : Char) : List Byte :=
  (String.utf8EncodeChar c).map (fun b => b.toNat)

/-- All bytes of a string. -/
def strBytes (s : String) : List Byte :=
  (s.data.map charBytes).flatten

/-- The `std::getline(ss, item, '.')` loop of `prepare_domain_name`, modelled at
character level: split on `'.'`.  `getline` omits the trailing empty piece that
this version keeps when the input ends in `'.'`; the difference is erased by
the `!item.empty()` filter the C++ loop applies to every piece, which every use
site below applies as well. -/
def splitOnDot : List Char → List (List Char)
  | [] => [[]]
  | c :: rest =>
    if c = '.' then [] :: splitOnDot rest
    else
      match splitOnDot rest with
      | [] => [[c]]
      | p :: ps => (c :: p) :: ps

/-- The accumulation loop of `prepare_domain_name` (DNSResolver.cpp 77–84):
`result` receives a zero separator before every part except the first
(`if (i > 0) result.push_back(0)`), then the part's bytes. -/
def joinParts : List (List Byte) → List Byte
  | [] => []
  | [p] => p
  | p :: q :: ps => p ++ 0 :: joinParts (q :: ps)

/-- `DNSResolver::prepare_domain_name` (DNSResolver.cpp 64–89): split the
domain on `'.'`, keep only non-empty parts, reverse their order, join their
bytes with single zero separators, then push one trailing zero byte. -/
def prepare_domain_name (domain : String) : List Byte :=
  let parts := ((splitOnDot domain.data).filter (fun p => p ≠ [])).reverse
  joinParts (parts.map (fun p => (p.map charBytes).flatten)) ++ [0]

/-- `std::isspace` in the default locale, as skipped by `std::stoll`. -/
def isSpaceChar (c : Char) : Bool :=
  c = ' ' || c = '\t' || c = '\n' || c = '\x0b' || c = '\x0c' || c = '\r'

/-- Value of a run of decimal digits. -/
def digitsToNat (ds : List Char) : Nat :=
  ds.foldl (fun a c => 10 * a + (c.toNat - '0'.toNat)) 0

/-- `std::stoll(s)` under the `try`/`catch` of `resolve_recursive`
(DNSResolver.cpp 176–183): skip leading whitespace, read an optional sign and
a maximal run of decimal digits; `none` when no digit is present
(`invalid_argument`) or the value leaves the `int64_t` range (`out_of_range`);
trailing characters are ignored. -/
def stoll (s : String) : Option Int :=
  let cs := s.data.dropWhile isSpaceChar
  let signed : Int × List Char :=
    match cs with
    | '-' :: rest => (-1, rest)
    | '+' :: rest => (1, rest)
    | _ => (1, cs)
  let ds := signed.2.takeWhile Char.isDigit
  if ds.isEmpty then none
  else
    let v : Int := signed.1 * (digitsToNat ds : Int)
    if v < -(2 ^ 63) ∨ 2 ^ 63 - 1 < v then none else some v

/-- `haystack.find(pat) != std::string::npos`: does `pat` occur as a contiguous
substring of the character list? -/
def occursIn (pat : List Char) : List Char → Bool
  | [] => pat.isEmpty
  | c :: rest => pat.isPrefixOf (c :: rest) || occursIn pat rest

/-- Substring test on strings, the model of `s.find(pat) != std::string::npos`. -/
def hasSubstr (s pat : String) : Bool :=
  occursIn pat.data s.data

/-- A `tonlib_api::tvm_StackEntry`, restricted to the shapes
`resolve_recursive` distinguishes via `dynamic_cast`: a decimal number entry,
a cell entry (payload never inspected by this code), a slice entry, and all
remaining variants collapsed into `other`. -/
inductive StackEntry
  | number (number_ : String)
  | cell (data : List Byte)
  | slice (bytes : List Byte)
  | other
  deriving DecidableEq

/-- The fields of `tonlib_api::smc_runResult` that `resolve_recursive` reads. -/
structure RunResult where
  exit_code : Int
  stack : List StackEntry
  deriving DecidableEq

/-- The behaviour of the external tonlib collaborator for the (at most) one
`smc_load` and one `smc_runGetMethod` round trip a single `resolve_recursive`
invocation performs.  `Except.error` carries the `td::Status` message. -/
structure RpcEnv where
  loadResult : Except String Nat
  runResult : Except String RunResult
  deriving DecidableEq

/-- The `smc_runGetMethod` request built at DNSResolver.cpp 110–115 and
138–144: the loaded contract id, the literal method name, and the two-entry
argument stack (name slice, then the category number). -/
structure DnsQuery where
  smc_id : Nat
  method : String
  stack : List StackEntry
  deriving DecidableEq

/-- Observable effects of one `resolve_recursive` invocation: how the promise
is settled, the `save_to_cache` message sent (if any), and the
`smc_runGetMethod` query issued (if the `smc_load` stage was reached and
succeeded). -/
structure StepResult where
  outcome : Except String String
  cacheWrite : Option (String × String)
  query : Option DnsQuery
  deriving DecidableEq

/-- `DNSResolver.h` line 24: `static constexpr int MAX_DNS_HOPS = 4`. -/
def MAX_DNS_HOPS : Int := 4

/-- `DNSResolver::resolve_recursive` (DNSResolver.cpp 95–218).  Depth guard,
then the `smc_load` round trip (special-casing "not initialized" /
"account not found" messages), then the `smc_runGetMethod` round trip with the
stack `[slice(domain_chain), number("0")]`, then validation of the result
stack; on full success the host is answered with the placeholder bag address
and a `save_to_cache` message is sent exactly when `full_host` contains
`".ton"`. -/
def resolve_recursive (full_host : String) (domain_chain : List Byte)
    (resolver_address : Option String) (depth : Int) (env : RpcEnv) : StepResult :=
  if depth ≥ MAX_DNS_HOPS then
    ⟨.error "DNS resolution depth limit exceeded", none, none⟩
  else
    match env.loadResult with
    | .error error_msg =>
      if hasSubstr error_msg "not initialized" || hasSubstr error_msg "account not found" then
        ⟨.error "no DNS entries found", none, none⟩
      else
        ⟨.error error_msg, none, none⟩
    | .ok smc_id =>
      let query : DnsQuery := ⟨smc_id, "dnsresolve", [.slice domain_chain, .number "0"]⟩
      match env.runResult with
      | .error run_msg => ⟨.error run_msg, none, some query⟩
      | .ok result =>
        if result.exit_code ≠ 0 then
          ⟨.error "DNS resolve method failed", none, some query⟩
        else
          match result.stack with
          | e0 :: e1 :: _ =>
            match e0 with
            | .number numStr =>
              match stoll numStr with
              | none => ⟨.error "Cannot parse resolved bits", none, some query⟩
              | some bits_resolved =>
                if bits_resolved.tmod 8 ≠ 0 then
                  ⟨.error "resolved bits is not mod 8", none, some query⟩
                else
                  match e1 with
                  | .cell _ =>
                    if hasSubstr full_host ".ton" then
                      ⟨.ok "storage_bag_placeholder.bag",
                        some (full_host, "storage_bag_placeholder.bag"), some query⟩
                    else
                      ⟨.error "Complex cell parsing not implemented in this simplified version",
                        none, some query⟩
                  | _ => ⟨.error "no DNS entries found", none, some query⟩
            | _ => ⟨.error "Invalid bits entry in DNS result", none, some query⟩
          | _ => ⟨.error "Invalid DNS resolve result", none, some query⟩

/-- `DNSResolver::CacheEntry` (DNSResolver.h 44–47). -/
structure CacheEntry where
  address_ : String
  created_at_ : ℚ
  deriving DecidableEq

/-- The `std::map<std::string, CacheEntry>` cache, as a partial map. -/
abbrev Cache := String → Option CacheEntry

/-- DNSResolver.cpp line 17. -/
def CACHE_TIMEOUT_HARD : ℚ := 300

/-- DNSResolver.cpp line 18. -/
def CACHE_TIMEOUT_SOFT : ℚ := 270

/-- `DNSResolver::save_to_cache` (DNSResolver.cpp 228–232); `now` is the
`td::Time::now()` observed at write time. -/
def save_to_cache (cache : Cache) (host address : String) (now : ℚ) : Cache :=
  fun h => if h = host then some ⟨address, now⟩ else cache h

/-- Apply the (at most one) `save_to_cache` message of a `StepResult`. -/
def applyCacheWrite (cache : Cache) (w : Option (String × String)) (now : ℚ) : Cache :=
  match w with
  | none => cache
  | some (host, address) => save_to_cache cache host address now

/-- Observable effects of one `DNSResolver::resolve` call: the value the
caller's promise is settled with, the cache after all effects of the call,
and whether `resolve_recursive` (and hence the tonlib client) was engaged. -/
structure ResolveOutcome where
  promiseResult : Except String String
  newCache : Cache
  rpcUsed : Bool

/-- `DNSResolver::resolve` (DNSResolver.cpp 43–62).  A cache entry younger
than the hard TTL settles the promise at once; younger than the soft TTL the
call returns without further work, otherwise `resolve_recursive` runs (with
the already-settled promise: its own settlement attempt is a no-op for the
caller).  A missing or hard-expired entry leaves the promise to
`resolve_recursive`.  `now` is the time of the cache check, `writeTime` the
time a potential `save_to_cache` executes. -/
def resolve (cache : Cache) (host : String) (now writeTime : ℚ) (env : RpcEnv) :
    ResolveOutcome :=
  match cache host with
  | some entry =>
    if now < entry.created_at_ + CACHE_TIMEOUT_HARD then
      if now < entry.created_at_ + CACHE_TIMEOUT_SOFT then
        ⟨.ok entry.address_, cache, false⟩
      else
        let r := resolve_recursive host (prepare_domain_name host) none 0 env
        ⟨.ok entry.address_, applyCacheWrite cache r.cacheWrite writeTime, true⟩
    else
      let r := resolve_recursive host (prepare_domain_name host) none 0 env
      ⟨r.outcome, applyCacheWrite cache r.cacheWrite writeTime, true⟩
  | none =>
    let r := resolve_recursive host (prepare_domain_name host) none 0 env
    ⟨r.outcome, applyCacheWrite cache r.cacheWrite writeTime, true⟩

/-- The Name-Chain Codec as the specification words it: split on `'.'`, drop
empty segments, reverse the segment order, concatenate the segment bytes with
exactly one zero byte between adjacent segments, and append one trailing zero
byte. -/
def prepare_chain_spec (domain : String) : List Byte :=
  let parts := ((splitOnDot domain.data).filter (fun p => p ≠ [])).reverse
  (List.intersperse [0] (parts.map (fun p => (p.map charBytes).flatten))).flatten ++ [0]

/-- The separator-before-each-later-part loop equals joining with an
interspersed zero byte. -/
lemma joinParts_eq_intersperse :
    ∀ l : List (List Byte), joinParts l = (List.intersperse [0] l).flatten
  | [] => rfl
  | [p] => by simp [joinParts]
  | p :: q :: ps => by
    rw [joinParts, List.intersperse_cons_cons, List.flatten_cons, List.flatten_cons,
      joinParts_eq_intersperse (q :: ps)]
    rfl

/-- Claim C6: `prepare_domain_name` splits its input on `'.'`, drops empty
segments, reverses the segment order, concatenates the segment bytes with
exactly one zero byte between adjacent segments and appends one trailing zero
byte (the formulation `prepare_chain_spec` takes verbatim from the spec), and
the empty string yields exactly `[0]`.  Being a Lean function, it is pure and
deterministic with no failure case. -/
theorem C6_prepare_chain (domain : String) :
    prepare_domain_name domain = prepare_chain_spec domain ∧
      prepare_domain_name "" = [0] := by
  refine ⟨?_, by decide⟩
  simp only [prepare_domain_name, prepare_chain_spec, joinParts_eq_intersperse]

/-- Every `save_to_cache` message of `resolve_recursive` is the placeholder
address for `full_host`, sent exactly in the success case. -/
lemma resolve_recursive_cacheWrite_spec (full_host : String) (chain : List Byte)
    (ra : Option String) (depth : Int) (env : RpcEnv) :
    ((resolve_recursive full_host chain ra depth env).cacheWrite = none ∧
        ∀ a, (resolve_recursive full_host chain ra depth env).outcome ≠ .ok a) ∨
      ((resolve_recursive full_host chain ra depth env).outcome =
          .ok "storage_bag_placeholder.bag" ∧
        (resolve_recursive full_host chain ra depth env).cacheWrite =
          some (full_host, "storage_bag_placeholder.bag")) := by
  unfold resolve_recursive
  repeat' split
  all_goals simp

/-- Claim C3: a cache entry whose age is under the soft TTL settles the
promise with the cached address, engages no RPC work, and leaves the cache
exactly as it was. -/
theorem C3_fresh_cache_hit (cache : Cache) (host : String) (entry : CacheEntry)
    (now writeTime : ℚ) (env : RpcEnv)
    (hfind : cache host = some entry)
    (hfresh : now < entry.created_at_ + CACHE_TIMEOUT_SOFT) :
    resolve cache host now writeTime env = ⟨.ok entry.address_, cache, false⟩ := by
  have hhard : now < entry.created_at_ + CACHE_TIMEOUT_HARD := by
    refine lt_trans hfresh ?_
    unfold CACHE_TIMEOUT_SOFT CACHE_TIMEOUT_HARD
    norm_num
  unfold resolve
  rw [hfind]
  simp only [if_pos hhard, if_pos hfresh]

/-- A concrete cache for the cache-policy witnesses: one entry, created at
time 0. -/
def cacheAt0 : Cache :=
  fun h => if h = "x.ton" then some ⟨"cached.bag", 0⟩ else none

/-- A collaborator environment whose load stage fails loudly; the fresh-hit
path must never consult it. -/
def envBoom : RpcEnv := ⟨.error "boom", .error "boom"⟩

theorem C3_fresh_cache_hit_witness :
    cacheAt0 "x.ton" = some ⟨"cached.bag", 0⟩ ∧
      ((100 : ℚ) < 0 + CACHE_TIMEOUT_SOFT) ∧
      resolve cacheAt0 "x.ton" 100 100 envBoom = ⟨.ok "cached.bag", cacheAt0, false⟩ :=
  ⟨by decide, by norm_num [CACHE_TIMEOUT_SOFT],
    C3_fresh_cache_hit cacheAt0 "x.ton" ⟨"cached.bag", 0⟩ 100 100 envBoom (by decide)
      (by norm_num [CACHE_TIMEOUT_SOFT])⟩

/-- Claim C4: a cache entry whose age is between the soft TTL (inclusive) and
the hard TTL (exclusive) settles the caller's promise immediately with the
cached address while one background resolution is launched; a successful
background resolution overwrites the entry (with the refresh-time timestamp),
and a failing one changes nothing — either way the caller sees only the cached
address. -/
theorem C4_stale_while_revalidate (cache : Cache) (host : String) (entry : CacheEntry)
    (now writeTime : ℚ) (env : RpcEnv)
    (hfind : cache host = some entry)
    (hsoft : entry.created_at_ + CACHE_TIMEOUT_SOFT ≤ now)
    (hhard : now < entry.created_at_ + CACHE_TIMEOUT_HARD) :
    (resolve cache host now writeTime env).promiseResult = .ok entry.address_ ∧
      (resolve cache host now writeTime env).rpcUsed = true ∧
      (∀ a, (resolve_recursive host (prepare_domain_name host) none 0 env).outcome = .ok a →
        (resolve cache host now writeTime env).newCache host = some ⟨a, writeTime⟩) ∧
      (∀ msg,
        (resolve_recursive host (prepare_domain_name host) none 0 env).outcome = .error msg →
        (resolve cache host now writeTime env).newCache = cache) := by
  have hresolve :
      resolve cache host now writeTime env =
        ⟨.ok entry.address_,
          applyCacheWrite cache
            (resolve_recursive host (prepare_domain_name host) none 0 env).cacheWrite
            writeTime,
          true⟩ := by
    unfold resolve
    rw [hfind]
    simp only [if_pos hhard, if_neg (not_lt.mpr hsoft)]
  rw [hresolve]
  refine ⟨rfl, rfl, ?_, ?_⟩
  · intro a ha
    rcases resolve_recursive_cacheWrite_spec host (prepare_domain_name host) none 0 env with
      ⟨_, hno⟩ | ⟨hok, hw⟩
    · exact absurd ha (hno a)
    · rw [ha] at hok
      cases hok
      rw [hw]
      simp [applyCacheWrite, save_to_cache]
  · intro msg hmsg
    rcases resolve_recursive_cacheWrite_spec host (prepare_domain_name host) none 0 env with
      ⟨hw, _⟩ | ⟨hok, _⟩
    · rw [hw]
      rfl
    · rw [hmsg] at hok
      cases hok

theorem C4_stale_while_revalidate_witness :
    cacheAt0 "x.ton" = some ⟨"cached.bag", 0⟩ ∧
      ((0 : ℚ) + CACHE_TIMEOUT_SOFT ≤ 280) ∧ ((280 : ℚ) < 0 + CACHE_TIMEOUT_HARD) ∧
      (resolve cacheAt0 "x.ton" 280 281 envBoom).promiseResult = .ok "cached.bag" ∧
      (resolve cacheAt0 "x.ton" 280 281 envBoom).rpcUsed = true :=
  ⟨by decide, by norm_num [CACHE_TIMEOUT_SOFT], by norm_num [CACHE_TIMEOUT_HARD],
    (C4_stale_while_revalidate cacheAt0 "x.ton" ⟨"cached.bag", 0⟩ 280 281 envBoom (by decide)
      (by norm_num [CACHE_TIMEOUT_SOFT]) (by norm_num [CACHE_TIMEOUT_HARD])).1,
    (C4_stale_while_revalidate cacheAt0 "x.ton" ⟨"cached.bag", 0⟩ 280 281 envBoom (by decide)
      (by norm_num [CACHE_TIMEOUT_SOFT]) (by norm_num [CACHE_TIMEOUT_HARD])).2.1⟩

/-- Claim C5: a cache entry whose age is at least the hard TTL is not served:
the call behaves as a miss, the caller's promise is settled exactly by the
outcome of the fresh resolution (success or failure), and the cache changes
only by that resolution's own write. -/
theorem C5_hard_expired_is_miss (cache : Cache) (host : String) (entry : CacheEntry)
    (now writeTime : ℚ) (env : RpcEnv)
    (hfind : cache host = some entry)
    (hstale : entry.created_at_ + CACHE_TIMEOUT_HARD ≤ now) :
    resolve cache host now writeTime env =
      ⟨(resolve_recursive host (prepare_domain_name host) none 0 env).outcome,
        applyCacheWrite cache
          (resolve_recursive host (prepare_domain_name host) none 0 env).cacheWrite
          writeTime,
        true⟩ := by
  unfold resolve
  rw [hfind]
  simp only [if_neg (not_lt.mpr hstale)]

theorem C5_hard_expired_is_miss_witness :
    cacheAt0 "x.ton" = some ⟨"cached.bag", 0⟩ ∧
      ((0 : ℚ) + CACHE_TIMEOUT_HARD ≤ 310) ∧
      resolve cacheAt0 "x.ton" 310 311 envBoom =
        ⟨(resolve_recursive "x.ton" (prepare_domain_name "x.ton") none 0 envBoom).outcome,
          applyCacheWrite cacheAt0
            (resolve_recursive "x.ton" (prepare_domain_name "x.ton") none 0 envBoom).cacheWrite
            311,
          true⟩ :=
  ⟨by decide, by norm_num [CACHE_TIMEOUT_HARD],
    C5_hard_expired_is_miss cacheAt0 "x.ton" ⟨"cached.bag", 0⟩ 310 311 envBoom (by decide)
      (by norm_num [CACHE_TIMEOUT_HARD])⟩

/-- Claim C9: a failed resolution never creates or modifies a cache entry —
when the caller's promise is rejected, the cache is exactly as before — and
the only way the cache can change at all is a successful terminal resolution
writing the placeholder address under the queried host with the write-time
timestamp. -/
theorem C9_failure_writes_nothing :
    (∀ (cache : Cache) (host : String) (now writeTime : ℚ) (env : RpcEnv) (msg : String),
      (resolve cache host now writeTime env).promiseResult = .error msg →
      (resolve cache host now writeTime env).newCache = cache) ∧
    (∀ (cache : Cache) (host : String) (now writeTime : ℚ) (env : RpcEnv) (h : String),
      (resolve cache host now writeTime env).newCache h ≠ cache h →
      (resolve_recursive host (prepare_domain_name host) none 0 env).outcome =
          .ok "storage_bag_placeholder.bag" ∧
        h = host ∧
        (resolve cache host now writeTime env).newCache h =
          some ⟨"storage_bag_placeholder.bag", writeTime⟩) := by
  have key : ∀ (cache : Cache) (host : String) (now writeTime : ℚ) (env : RpcEnv),
      (resolve cache host now writeTime env).newCache = cache ∨
        ((resolve_recursive host (prepare_domain_name host) none 0 env).outcome =
            .ok "storage_bag_placeholder.bag" ∧
          (resolve cache host now writeTime env).newCache =
            save_to_cache cache host "storage_bag_placeholder.bag" writeTime) := by
    intro cache host now writeTime env
    rcases resolve_recursive_cacheWrite_spec host (prepare_domain_name host) none 0 env with
      ⟨hw, _⟩ | ⟨hok, hw⟩
    · left
      unfold resolve
      repeat' split
      all_goals simp [applyCacheWrite, hw]
    · unfold resolve
      repeat' split
      all_goals
        first
          | (left; rfl)
          | (right; exact ⟨hok, by simp [applyCacheWrite, hw]⟩)
  constructor
  · intro cache host now writeTime env msg hmsg
    rcases key cache host now writeTime env with hsame | ⟨hok, _⟩
    · exact hsame
    · exfalso
      revert hmsg
      unfold resolve
      rcases resolve_recursive_cacheWrite_spec host (prepare_domain_name host) none 0 env with
        ⟨_, hno⟩ | ⟨hok2, _⟩
      · exact absurd hok (hno _)
      · repeat' split
        all_goals simp [hok]
  · intro cache host now writeTime env h hdiff
    rcases key cache host now writeTime env with hsame | ⟨hok, hw⟩
    · exact absurd (congrFun hsame h) hdiff
    · refine ⟨hok, ?_, ?_⟩
      · by_contra hne
        apply hdiff
        rw [hw]
        simp [save_to_cache, hne]
      · rw [hw] at hdiff ⊢
        simp only [save_to_cache] at hdiff ⊢
        by_cases hh : h = host
        · simp [hh]
        · simp [hh] at hdiff

/-- A run result with a number entry but no cell entry in second position:
the "domain exists but has no records" shape. -/
def envNoRecords : RpcEnv := ⟨.ok 7, .ok ⟨0, [.number "0", .other]⟩⟩

theorem C9_failure_writes_nothing_witness :
    (resolve (fun _ => none) "x.ton" 0 0 envNoRecords).promiseResult =
        .error "no DNS entries found" ∧
      (resolve (fun _ => none) "x.ton" 0 0 envNoRecords).newCache = (fun _ => none) :=
  ⟨by decide,
    C9_failure_writes_nothing.1 (fun _ => none) "x.ton" 0 0 envNoRecords
      "no DNS entries found" (by decide)⟩

/-- Claim C10: once a hop's RPC result passes all structural validation
(`smc_load` ok, exit code 0, a stack whose first entry is a number parsing to
an integer divisible by 8 and whose second entry is a cell), the outcome is
decided solely by whether `full_host` contains `".ton"`: the promise is
fulfilled with the constant placeholder string and that string is cached under
`full_host` when it does, and rejected when it does not — the record's content
(`numStr`, `cellData`, `rest`, `chain`) never influences the address. -/
theorem C10_ton_substring_decides (full_host : String) (chain : List Byte)
    (ra : Option String) (env : RpcEnv) (smc_id : Nat) (numStr : String) (bits : Int)
    (cellData : List Byte) (rest : List StackEntry)
    (hload : env.loadResult = .ok smc_id)
    (hrun : env.runResult = .ok ⟨0, .number numStr :: .cell cellData :: rest⟩)
    (hbits : stoll numStr = some bits)
    (hmod : bits.tmod 8 = 0) :
    (hasSubstr full_host ".ton" = true →
      (resolve_recursive full_host chain ra 0 env).outcome =
          .ok "storage_bag_placeholder.bag" ∧
        (resolve_recursive full_host chain ra 0 env).cacheWrite =
          some (full_host, "storage_bag_placeholder.bag")) ∧
    (hasSubstr full_host ".ton" = false →
      (resolve_recursive full_host chain ra 0 env).outcome =
          .error "Complex cell parsing not implemented in this simplified version" ∧
        (resolve_recursive full_host chain ra 0 env).cacheWrite = none) := by
  have hstep : resolve_recursive full_host chain ra 0 env =
      if hasSubstr full_host ".ton" then
        ⟨.ok "storage_bag_placeholder.bag", some (full_host, "storage_bag_placeholder.bag"),
          some ⟨smc_id, "dnsresolve", [.slice chain, .number "0"]⟩⟩
      else
        ⟨.error "Complex cell parsing not implemented in this simplified version", none,
          some ⟨smc_id, "dnsresolve", [.slice chain, .number "0"]⟩⟩ := by
    unfold resolve_recursive
    rw [hload, hrun]
    simp [MAX_DNS_HOPS, hbits, hmod]
  constructor <;> intro h <;> rw [hstep] <;> simp [h]

theorem C10_ton_substring_decides_witness :
    stoll "16" = some 16 ∧ Int.tmod 16 8 = 0 ∧ hasSubstr "site.ton" ".ton" = true ∧
      (resolve_recursive "site.ton" [9] none 0 ⟨.ok 7, .ok ⟨0, [.number "16", .cell [3]]⟩⟩).outcome =
        .ok "storage_bag_placeholder.bag" :=
  ⟨by decide, by decide, by decide,
    ((C10_ton_substring_decides "site.ton" [9] none ⟨.ok 7, .ok ⟨0, [.number "16", .cell [3]]⟩⟩
      7 "16" 16 [3] [] rfl rfl (by decide) (by decide)).1 (by decide)).1⟩

/-- A hop result of the delegation shape (a cell the full resolver would have
followed to the next resolver), returned to a host that does not contain
".ton". -/
def envDeleg : RpcEnv := ⟨.ok 7, .ok ⟨0, [.number "32", .cell [171, 205]]⟩⟩

/-- Claim C2 (divergence record): the depth guard of `resolve_recursive` does
fire exactly at `depth ≥ MAX_DNS_HOPS = 4`, before any RPC work (`query` is
`none`), but nothing in the code ever recurses or increments `depth`: a hop
whose result is a delegation-shaped record is not followed — at depth 0 (and
at depth 3) it already ends the resolution with the cell-parsing error instead
of recursing, so no chain of NextResolver records is ever rejected after
exactly four hops. -/
theorem C2_depth_guard_without_recursion :
    (∀ (host : String) (chain : List Byte) (ra : Option String) (depth : Int) (env : RpcEnv),
      depth ≥ MAX_DNS_HOPS →
      resolve_recursive host chain ra depth env =
        ⟨.error "DNS resolution depth limit exceeded", none, none⟩) ∧
    (resolve_recursive "loop.example" [1, 2, 0] none 0 envDeleg =
      ⟨.error "Complex cell parsing not implemented in this simplified version", none,
        some ⟨7, "dnsresolve", [.slice [1, 2, 0], .number "0"]⟩⟩) ∧
    (resolve_recursive "loop.example" [1, 2, 0] none 3 envDeleg =
      ⟨.error "Complex cell parsing not implemented in this simplified version", none,
        some ⟨7, "dnsresolve", [.slice [1, 2, 0], .number "0"]⟩⟩) := by
  refine ⟨?_, by decide, by decide⟩
  intro host chain ra depth env hdepth
  unfold resolve_recursive
  rw [if_pos hdepth]

theorem C2_depth_guard_without_recursion_witness :
    ((4 : Int) ≥ MAX_DNS_HOPS) ∧
      resolve_recursive "loop.example" [1, 2, 0] none 4 envDeleg =
        ⟨.error "DNS resolution depth limit exceeded", none, none⟩ :=
  ⟨by decide,
    C2_depth_guard_without_recursion.1 "loop.example" [1, 2, 0] none 4 envDeleg (by decide)⟩

/-- Claim C7 (divergence record): every `smc_runGetMethod` query a hop issues
carries as its category argument the constant decimal number entry `"0"` — a
value independent of any record-type tag; the SHA-256 helper
`calculate_record_hash` has no call site on the query path. -/
theorem C7_category_argument_is_zero (full_host : String) (chain : List Byte)
    (ra : Option String) (depth : Int) (env : RpcEnv) (q : DnsQuery)
    (hq : (resolve_recursive full_host chain ra depth env).query = some q) :
    q.method = "dnsresolve" ∧ q.stack = [.slice chain, .number "0"] := by
  revert hq
  unfold resolve_recursive
  repeat' split
  all_goals intro hq
  all_goals cases hq
  all_goals exact ⟨rfl, rfl⟩

theorem C7_category_argument_is_zero_witness :
    (resolve_recursive "site.ton" [5, 6] none 0
        ⟨.ok 7, .ok ⟨0, [.number "16", .cell [1]]⟩⟩).query =
      some ⟨7, "dnsresolve", [.slice [5, 6], .number "0"]⟩ ∧
    (⟨7, "dnsresolve", [.slice [5, 6], .number "0"]⟩ : DnsQuery).stack =
      [.slice [5, 6], .number "0"] :=
  ⟨by decide,
    (C7_category_argument_is_zero "site.ton" [5, 6] none 0
      ⟨.ok 7, .ok ⟨0, [.number "16", .cell [1]]⟩⟩
      ⟨7, "dnsresolve", [.slice [5, 6], .number "0"]⟩ (by decide)).2⟩

/-- A structurally valid terminal hop result, as the C1 scenario's final hop
would deliver it. -/
def envValid16 : RpcEnv := ⟨.ok 7, .ok ⟨0, [.number "16", .cell [10, 20]]⟩⟩

/-- Claim C1 (divergence record): resolving `"site.ton"` from a cold cache
against a structurally valid hop result fulfills the promise with the
constant string `"storage_bag_placeholder.bag"` — which does not end in
`".adnl"` — and caches that constant under `"site.ton"`; no 256-bit node
identifier is parsed from the record and no `<canonical-id>.adnl` string is
ever formed. -/
theorem C1_adnl_record_not_parsed :
    (resolve (fun _ => none) "site.ton" 0 5 envValid16).promiseResult =
        .ok "storage_bag_placeholder.bag" ∧
      (resolve (fun _ => none) "site.ton" 0 5 envValid16).newCache "site.ton" =
        some ⟨"storage_bag_placeholder.bag", 5⟩ ∧
      (resolve (fun _ => none) "site.ton" 0 5 envValid16).newCache "other.host" = none ∧
      List.isSuffixOf ".adnl".data "storage_bag_placeholder.bag".data = false := by
  refine ⟨by decide, by decide, by decide, by decide⟩

/-- Claim C8 (divergence record): rejection messages exist that are none of
the five labelled kinds — with a collaborator that succeeded at every stage
(so nothing is passed through), the resolver itself rejects with
"Complex cell parsing not implemented in this simplified version" for a valid
result on a non-".ton" host, and with "Invalid bits entry in DNS result" when
the first stack entry is not a number. -/
theorem C8_unlabelled_rejections :
    (resolve (fun _ => none) "example.org" 0 0
        ⟨.ok 7, .ok ⟨0, [.number "16", .cell [1]]⟩⟩).promiseResult =
      .error "Complex cell parsing not implemented in this simplified version" ∧
    (resolve (fun _ => none) "x.ton" 0 0
        ⟨.ok 7, .ok ⟨0, [.cell [1], .cell [1]]⟩⟩).promiseResult =
      .error "Invalid bits entry in DNS result" := by
  refine ⟨by decide, by decide⟩

end DNSResolver
